import Mathlib

/-!
Shallow embedding of the flowserver transfer engine
(src/unnamed/part_001: class BlockhashCache, class TransferEngine).

External effects (the network RPC calls, the timer, the wall clock) are
passed in explicitly: each tick receives the clock readings, the outcome of
the blockhash fetch (consulted only when the cache actually fetches) and the
outcome of the transaction submission, so that every method of the source is
a pure Lean function on an explicit engine state.  Machine numbers are
modelled as Nat/Int; the only float expression in the source,
Math.floor(total * 0.10) with total a nonnegative integer, is modelled in
exact arithmetic as total / 10 (for the magnitudes the engine uses the two
agree; the tie to the real-number floor is proved where a claim needs it).
-/

namespace Flowserver

/-- const LOG_SIZE = 200 -/
def LOG_SIZE : Nat := 200

/-- this.CACHE_DURATION = 25000 (milliseconds), set in the BlockhashCache
constructor and never changed. -/
def CACHE_DURATION : Int := 25000

/-- JavaScript truthiness of a possibly-null string: null/undefined and the
empty string are falsy. -/
def truthy : Option String → Bool
  | none => false
  | some s => !s.isEmpty

/-- JavaScript String.prototype.includes on the error message. -/
def containsSub (s pat : String) : Bool :=
  (List.range (s.length + 1)).any fun i => pat.toList.isPrefixOf (s.toList.drop i)

/-- The object returned by connection.getLatestBlockhash and by
BlockhashCache.getRecentBlockhash: a blockhash (possibly null) and the
lastValidBlockHeight (possibly null, as in a cleared cache). -/
structure HashResult where
  blockhash : Option String
  lastValidBlockHeight : Option Int
deriving Repr, DecidableEq

/-- Mutable state of class BlockhashCache: this.blockhash,
this.lastValidBlockHeight, this.lastFetch.  The constructor sets them to
null / null / 0. -/
structure BlockhashCache where
  blockhash : Option String
  lastValidBlockHeight : Option Int
  lastFetch : Int
deriving Repr, DecidableEq

/-- BlockhashCache.clear(): blockhash = null, lastValidBlockHeight = null,
lastFetch = 0. -/
def BlockhashCache.clear (_c : BlockhashCache) : BlockhashCache :=
  { blockhash := none, lastValidBlockHeight := none, lastFetch := 0 }

/-- BlockhashCache.getRecentBlockhash().  now is Date.now() at entry; fetch
is the outcome of connection.getLatestBlockhash("confirmed"), consulted only
when the cache is missing or expired (condition
!this.blockhash || (now - this.lastFetch) > this.CACHE_DURATION).  A
rejected fetch propagates as an error and leaves the cache unchanged.  The
Bool in the result records whether the network fetch was performed. -/
def BlockhashCache.getRecentBlockhash (c : BlockhashCache) (now : Int)
    (fetch : Except String HashResult) :
    Except String (HashResult × BlockhashCache × Bool) :=
  if !(truthy c.blockhash) || decide (now - c.lastFetch > CACHE_DURATION) then
    match fetch with
    | .error msg => .error msg
    | .ok result =>
        .ok (result,
             { blockhash := result.blockhash,
               lastValidBlockHeight := result.lastValidBlockHeight,
               lastFetch := now },
             true)
  else
    .ok ({ blockhash := c.blockhash, lastValidBlockHeight := c.lastValidBlockHeight },
         c, false)

/-- One entry of this.logs: { text, txId? }. -/
structure LogEntry where
  text : String
  txId : Option String
deriving Repr, DecidableEq

/-- An instruction added to the transaction: createTransferCheckedInstruction
(source ATA, mint, destination ATA, owner = gateway pubkey, amount,
decimals = 6) or the memo instruction with its data payload. -/
inductive Instr where
  | transferChecked (source mint dest owner : String) (amount : Nat) (decimals : Nat)
  | memo (data : String)
deriving Repr, DecidableEq

/-- The signed transaction as handed to connection.sendRawTransaction,
together with the submission options { skipPreflight: false, maxRetries: 0 }
and the key it was signed with (tx.sign(this.gatewayKey)). -/
structure SentTx where
  recentBlockhash : String
  feePayer : String
  instructions : List Instr
  skipPreflight : Bool
  maxRetries : Nat
  signedBy : String
deriving Repr, DecidableEq

/-- What one invocation of executeTransfer did: abandoned because the cache
yielded no (truthy) blockhash; threw before building a transaction (a
rejected blockhash fetch, caught by the catch block); or built, signed and
submitted a transaction, with the submission outcome (signature or error
message). -/
inductive TickOutcome where
  | noBlockhash
  | threw (msg : String)
  | sent (tx : SentTx) (result : Except String String)
deriving Repr

/-- Mutable state of class TransferEngine (the fields set in its
constructor).  intervalId is the timer handle from setInterval (null when
idle); the configuration fields (gatewayKey as its public key, creatorPubkey,
usdcMint, perSecond) are fixed at construction. -/
structure TransferEngine where
  intervalId : Option Nat
  blockhashCache : BlockhashCache
  gatewayKey : String
  creatorPubkey : String
  usdcMint : String
  perSecond : Nat
  logs : List LogEntry
  userAta : Option String
  creatorAta : Option String
  uploaderPubkey : Option String
  uploaderAta : Option String
  lastSignature : Option String
  transferCount : Nat
  userPubkey : Option String
  firstTransferConfirmed : Bool
deriving Repr

/-- The TransferEngine constructor: timer null, fresh cache, empty log,
all resolved accounts null, count 0, flag false. -/
def TransferEngine.init (gatewayKey creatorPubkey usdcMint : String)
    (perSecond : Nat) : TransferEngine :=
  { intervalId := none
    blockhashCache := { blockhash := none, lastValidBlockHeight := none, lastFetch := 0 }
    gatewayKey := gatewayKey
    creatorPubkey := creatorPubkey
    usdcMint := usdcMint
    perSecond := perSecond
    logs := []
    userAta := none
    creatorAta := none
    uploaderPubkey := none
    uploaderAta := none
    lastSignature := none
    transferCount := 0
    userPubkey := none
    firstTransferConfirmed := false }

/-- TransferEngine.log(line, txId): push { text, txId? }, then
if (this.logs.length > LOG_SIZE) this.logs.shift(). -/
def TransferEngine.log (e : TransferEngine) (line : String)
    (txId : Option String := none) : TransferEngine :=
  let logs := e.logs ++ [{ text := line, txId := txId }]
  { e with logs := if logs.length > LOG_SIZE then logs.tail else logs }

/-- Result of TransferEngine.start: ok carries the new engine state; err
carries the thrown message together with the engine state at the moment of
the throw (in the source the fields mutated so far keep their new values). -/
inductive StartResult where
  | ok (e : TransferEngine)
  | err (msg : String) (e : TransferEngine)
deriving Repr

/-- TransferEngine.start(userPubkey, uploaderPubkey).  atasResult is the
outcome of the awaited getAtas call (userAta, creatorAta); uploaderAtaVal is
the value getAssociatedTokenAddress would return (a pure address derivation,
used only when uploaderPubkey is given); timerId is the handle returned by
setInterval.  Field mutations happen in source order: the AlreadyRunning
check, then logs = [], userPubkey, uploaderPubkey, then the fallible account
resolution, then the remaining fields, the start log line and the timer. -/
def TransferEngine.start (e : TransferEngine) (userPk : String)
    (uploaderPk : Option String) (atasResult : Except String (String × String))
    (uploaderAtaVal : String) (timerId : Nat) : StartResult :=
  if e.intervalId.isSome then .err "Loop already running" e
  else
    let e1 := { e with logs := ([] : List LogEntry),
                       userPubkey := some userPk,
                       uploaderPubkey := uploaderPk }
    match atasResult with
    | .error msg => .err msg e1
    | .ok (userAta, creatorAta) =>
        let e2 := { e1 with
          userAta := some userAta
          creatorAta := some creatorAta
          uploaderAta := if uploaderPk.isSome then some uploaderAtaVal else none
          transferCount := 0
          firstTransferConfirmed := false }
        let e3 := e2.log "▶ Stream started"
        .ok { e3 with intervalId := some timerId }

/-- Decimal rendering of an amount of base units divided by 1,000,000, as
the source's template literals print the JavaScript number n / 1_000_000
(exact decimal expansion, trailing zeros dropped). -/
def fmtTokens (n : Nat) : String :=
  let whole := n / 1000000
  let frac := n % 1000000
  if frac == 0 then toString whole
  else
    let digits := (toString (1000000 + frac)).drop 1
    toString whole ++ "." ++ String.mk ((digits.toList.reverse.dropWhile (· == '0')).reverse)

/-- The transaction built inside executeTransfer once a blockhash is in
hand: total = perSecond * 5; platformAmount = Math.floor(total * 0.10)
(exact: total / 10); uploaderAmount = total - platformAmount.  If an
uploader ATA exists, one transfer of uploaderAmount to it and one of
platformAmount to the creator ATA; otherwise a single transfer of total to
the creator ATA.  A memo instruction "flow402x-" ++ Date.now() is always
appended, and the transaction is signed by the gateway key, which is also
the fee payer. -/
def TransferEngine.buildTx (e : TransferEngine) (bh : String) (memoTime : Int) : SentTx :=
  let total := e.perSecond * 5
  let platformAmount := total / 10
  let uploaderAmount := total - platformAmount
  let transferIxs : List Instr :=
    match e.uploaderAta with
    | some upAta =>
        [Instr.transferChecked (e.userAta.getD "") e.usdcMint upAta e.gatewayKey
           uploaderAmount 6,
         Instr.transferChecked (e.userAta.getD "") e.usdcMint (e.creatorAta.getD "")
           e.gatewayKey platformAmount 6]
    | none =>
        [Instr.transferChecked (e.userAta.getD "") e.usdcMint (e.creatorAta.getD "")
           e.gatewayKey total 6]
  { recentBlockhash := bh
    feePayer := e.gatewayKey
    instructions := transferIxs ++ [Instr.memo ("flow402x-" ++ toString memoTime)]
    skipPreflight := false
    maxRetries := 0
    signedBy := e.gatewayKey }

/-- The text of the success log line of executeTransfer: amounts (as the
source prints uploaderAmount / 1_000_000 etc.) and the truncated signature
sig.substring(0,4) + "..." + sig.substring(len-4).  The full signature is
stored separately as the entry's txId. -/
def TransferEngine.successText (e : TransferEngine) (sig : String) : String :=
  let total := e.perSecond * 5
  let platformAmount := total / 10
  let uploaderAmount := total - platformAmount
  let shortSig := sig.take 4 ++ "..." ++ sig.drop (sig.length - 4)
  match e.uploaderAta with
  | some _ =>
      "✔ Sent " ++ fmtTokens uploaderAmount ++ " FLOW to creator, " ++
        fmtTokens platformAmount ++ " FLOW fee → " ++ shortSig
  | none =>
      "✔ Sent " ++ fmtTokens total ++ " FLOW (platform) → " ++ shortSig

/-- The external inputs of one tick: the clock reading used by the cache,
the clock reading used by the memo payload (Date.now() is called again
there), the outcome of the blockhash fetch should one happen, and the
outcome of sendRawTransaction should a transaction be submitted. -/
structure TickEnv where
  now : Int
  memoTime : Int
  fetchResult : Except String HashResult
  sendResult : Except String String
deriving Repr

/-- TransferEngine.executeTransfer(), the timer callback, in source order:
increment transferCount; every 10th tick clear the cache; get a blockhash
from the cache (a rejected fetch is caught by the catch block, which clears
the cache only when the message contains "blockhash"); if the blockhash is
falsy, clear the cache and return; otherwise build, sign and submit the
transaction; on submission success record lastSignature, append the success
log line, and set firstTransferConfirmed when transferCount === 1; on
submission failure fall to the same catch block. -/
def TransferEngine.executeTransfer (e : TransferEngine) (env : TickEnv) :
    TransferEngine × TickOutcome :=
  let count := e.transferCount + 1
  let cache0 := if count % 10 == 0 then e.blockhashCache.clear else e.blockhashCache
  match cache0.getRecentBlockhash env.now env.fetchResult with
  | .error msg =>
      ({ e with transferCount := count,
                blockhashCache := if containsSub msg "blockhash" then cache0.clear else cache0 },
       .threw msg)
  | .ok (res, cache, _) =>
      match res.blockhash with
      | none =>
          ({ e with transferCount := count, blockhashCache := cache.clear }, .noBlockhash)
      | some bh =>
          if bh.isEmpty then
            ({ e with transferCount := count, blockhashCache := cache.clear }, .noBlockhash)
          else
            let tx := e.buildTx bh env.memoTime
            match env.sendResult with
            | .error msg =>
                ({ e with transferCount := count,
                          blockhashCache :=
                            if containsSub msg "blockhash" then cache.clear else cache },
                 .sent tx (.error msg))
            | .ok sig =>
                let e4 := { e with transferCount := count, blockhashCache := cache,
                                   lastSignature := some sig }
                let e5 := e4.log (e.successText sig) (some sig)
                let e6 := if count == 1 then { e5 with firstTransferConfirmed := true } else e5
                (e6, .sent tx (.ok sig))

/-- TransferEngine.stop(): if a timer is armed, disarm it, zero
transferCount, lastSignature and firstTransferConfirmed, and append the
terminal log line; otherwise do nothing.  Totality of this function models
that stop never throws. -/
def TransferEngine.stop (e : TransferEngine) : TransferEngine :=
  if e.intervalId.isSome then
    ({ e with intervalId := none, transferCount := 0, lastSignature := none,
              firstTransferConfirmed := false } : TransferEngine).log "⏹ Stream stopped"
  else e

/-- TransferEngine.getLogs(): this.logs.slice(-LOG_SIZE), the last at most
LOG_SIZE entries in order. -/
def TransferEngine.getLogs (e : TransferEngine) : List LogEntry :=
  e.logs.drop (e.logs.length - LOG_SIZE)

/-- The snapshot returned by TransferEngine.getStatus(). -/
structure Status where
  active : Bool
  firstTransferConfirmed : Bool
  transferCount : Nat
deriving Repr, DecidableEq

/-- TransferEngine.getStatus(). -/
def TransferEngine.getStatus (e : TransferEngine) : Status :=
  { active := e.intervalId.isSome
    firstTransferConfirmed := e.firstTransferConfirmed
    transferCount := e.transferCount }

/-- A sequence of log appends, as the engine performs over a run. -/
def TransferEngine.logAll (e : TransferEngine) (msgs : List (String × Option String)) :
    TransferEngine :=
  msgs.foldl (fun acc m => acc.log m.1 m.2) e

/-- A sequence of timer ticks: each element supplies one tick's external
inputs and the engine state threads through. -/
def TransferEngine.runTicks (e : TransferEngine) (envs : List TickEnv) : TransferEngine :=
  envs.foldl (fun acc env => (acc.executeTransfer env).1) e

/-! Representative concrete states and tick inputs, used by the witnesses
and counterexamples below. -/

/-- An engine as the constructor leaves it. -/
def sampleIdle : TransferEngine := TransferEngine.init "GATEKEY" "CREATOR" "MINT" 1000000

/-- An engine that has just been started with a secondary (uploader)
recipient: timer armed, accounts resolved, counter zero. -/
def sampleRunning : TransferEngine :=
  { intervalId := some 7
    blockhashCache := { blockhash := none, lastValidBlockHeight := none, lastFetch := 0 }
    gatewayKey := "GATEKEY"
    creatorPubkey := "CREATOR"
    usdcMint := "MINT"
    logs := [{ text := "▶ Stream started", txId := none }]
    perSecond := 1000000
    userAta := some "USERATA"
    creatorAta := some "CREATORATA"
    uploaderPubkey := some "UPLOADER"
    uploaderAta := some "UPLOADERATA"
    lastSignature := none
    transferCount := 0
    userPubkey := some "USER"
    firstTransferConfirmed := false }

/-- A tick whose blockhash fetch succeeds and whose submission succeeds. -/
def envOk : TickEnv :=
  { now := 1000
    memoTime := 1001
    fetchResult := .ok { blockhash := some "HASH1", lastValidBlockHeight := some 50 }
    sendResult := .ok "SIGAAAAtailBBBB" }

/-- A tick whose blockhash fetch resolves with a null blockhash. -/
def envNoHash : TickEnv :=
  { now := 2000
    memoTime := 2001
    fetchResult := .ok { blockhash := none, lastValidBlockHeight := some 51 }
    sendResult := .ok "SIGCCCCtailDDDD" }

/-- Every transaction a tick submits was built by buildTx from some nonempty
blockhash string, and the recorded submission outcome is exactly the
network's response to it. -/
theorem executeTransfer_sent_spec (e : TransferEngine) (env : TickEnv)
    (e' : TransferEngine) (tx : SentTx) (r : Except String String)
    (h : e.executeTransfer env = (e', TickOutcome.sent tx r)) :
    r = env.sendResult ∧ ∃ bh, bh.isEmpty = false ∧ tx = e.buildTx bh env.memoTime := by
  simp only [TransferEngine.executeTransfer] at h
  split at h
  · simp at h
  · split at h
    · simp at h
    · split at h
      · simp at h
      · split at h
        next msg hsend =>
          simp only [Prod.mk.injEq, TickOutcome.sent.injEq] at h
          refine ⟨hsend ▸ h.2.2.symm, _, ?_, h.2.1.symm⟩
          simp_all
        next sig hsend =>
          simp only [Prod.mk.injEq, TickOutcome.sent.injEq] at h
          refine ⟨hsend ▸ h.2.2.symm, _, ?_, h.2.1.symm⟩
          simp_all

/-- C1: for every tick that submits a transaction, the per-tick total is
perSecond × 5; the platform amount is floor(total × 0.10) (equal to
total / 10 in exact arithmetic); with a secondary recipient the transaction
transfers exactly total − platformAmount to them and platformAmount to the
platform, the two amounts summing exactly to the total; with no secondary
recipient the single transfer carries the entire total; and at
perSecond = 1,000,000 the split is 500,000 to the platform and 4,500,000 to
the secondary recipient. -/
theorem C1_fee_split (e : TransferEngine) (env : TickEnv) (e' : TransferEngine)
    (tx : SentTx) (r : Except String String)
    (h : e.executeTransfer env = (e', TickOutcome.sent tx r)) :
    (e.perSecond * 5) / 10 = ⌊((e.perSecond * 5 : ℕ) : ℚ) * (10 / 100)⌋₊ ∧
    (e.perSecond * 5) / 10 + (e.perSecond * 5 - (e.perSecond * 5) / 10) = e.perSecond * 5 ∧
    (∀ upAta, e.uploaderAta = some upAta →
       ∃ memoData,
         tx.instructions =
           [Instr.transferChecked (e.userAta.getD "") e.usdcMint upAta e.gatewayKey
              (e.perSecond * 5 - (e.perSecond * 5) / 10) 6,
            Instr.transferChecked (e.userAta.getD "") e.usdcMint (e.creatorAta.getD "")
              e.gatewayKey ((e.perSecond * 5) / 10) 6,
            Instr.memo memoData]) ∧
    (e.uploaderAta = none →
       ∃ memoData,
         tx.instructions =
           [Instr.transferChecked (e.userAta.getD "") e.usdcMint (e.creatorAta.getD "")
              e.gatewayKey (e.perSecond * 5) 6,
            Instr.memo memoData]) ∧
    (e.perSecond = 1000000 →
       (e.perSecond * 5) / 10 = 500000 ∧ e.perSecond * 5 - (e.perSecond * 5) / 10 = 4500000) := by
  obtain ⟨-, bh, -, htx⟩ := executeTransfer_sent_spec e env e' tx r h
  refine ⟨?_, ?_, ?_, ?_, ?_⟩
  · rw [show ((e.perSecond * 5 : ℕ) : ℚ) * (10 / 100) =
        ((e.perSecond * 5 : ℕ) : ℚ) / ((10 : ℕ) : ℚ) by push_cast; ring]
    rw [Nat.floor_div_eq_div]
  · have := Nat.div_le_self (e.perSecond * 5) 10
    omega
  · intro upAta hup
    subst htx
    exact ⟨"flow402x-" ++ toString env.memoTime, by simp [TransferEngine.buildTx, hup]⟩
  · intro hup
    subst htx
    exact ⟨"flow402x-" ++ toString env.memoTime, by simp [TransferEngine.buildTx, hup]⟩
  · intro hps
    rw [hps]
    exact ⟨by norm_num, by norm_num⟩

/-- Witness for C1 at a concrete started engine and a concrete successful
tick with perSecond = 1,000,000. -/
theorem C1_fee_split_witness :
    (sampleRunning.perSecond * 5) / 10 = 500000 ∧
    sampleRunning.perSecond * 5 - (sampleRunning.perSecond * 5) / 10 = 4500000 :=
  (C1_fee_split sampleRunning envOk _ _ _ rfl).2.2.2.2 rfl

/-- The skipPreflight submission option of a tick that submitted a
transaction, none for a tick that submitted nothing. -/
def sentSkipPreflight : TickOutcome → Option Bool
  | .sent tx _ => some tx.skipPreflight
  | _ => none

/-- C2 counterexample: a concrete successful tick submits its transaction
with skipPreflight = false, i.e. the node is asked to run the preflight
simulation, contradicting the claim that submission happens with no
pre-submission simulation. -/
theorem C2_counterexample :
    sentSkipPreflight (sampleRunning.executeTransfer envOk).2 = some false := rfl

/-- C2 (amended): every transaction a tick submits is signed by the engine's
fixed gateway key, which is also the fee payer, and is submitted with
preflight simulation enabled (skipPreflight = false) and zero automatic
retries (maxRetries = 0). -/
theorem C2_sign_submit_options (e : TransferEngine) (env : TickEnv)
    (e' : TransferEngine) (tx : SentTx) (r : Except String String)
    (h : e.executeTransfer env = (e', TickOutcome.sent tx r)) :
    tx.signedBy = e.gatewayKey ∧ tx.feePayer = e.gatewayKey ∧
    tx.skipPreflight = false ∧ tx.maxRetries = 0 := by
  obtain ⟨-, bh, -, htx⟩ := executeTransfer_sent_spec e env e' tx r h
  subst htx
  exact ⟨rfl, rfl, rfl, rfl⟩

/-- Witness for C2 (amended) at a concrete engine and tick. -/
theorem C2_sign_submit_options_witness :
    (sampleRunning.buildTx "HASH1" 1001).signedBy = sampleRunning.gatewayKey ∧
    (sampleRunning.buildTx "HASH1" 1001).feePayer = sampleRunning.gatewayKey ∧
    (sampleRunning.buildTx "HASH1" 1001).skipPreflight = false ∧
    (sampleRunning.buildTx "HASH1" 1001).maxRetries = 0 :=
  C2_sign_submit_options sampleRunning envOk _ _ _ rfl

/-- Full characterization of the state after a tick whose submission
succeeded: the signature is recorded, the counter was incremented, the
confirmation flag is set exactly when this was tick number 1 (or was
already set), and the success line was appended to the log (with the
one-out eviction of a full buffer). -/
theorem executeTransfer_ok_spec (e : TransferEngine) (env : TickEnv)
    (e' : TransferEngine) (tx : SentTx) (sig : String)
    (h : e.executeTransfer env = (e', TickOutcome.sent tx (.ok sig))) :
    e'.lastSignature = some sig ∧
    e'.transferCount = e.transferCount + 1 ∧
    e'.firstTransferConfirmed = (decide (e.transferCount = 0) || e.firstTransferConfirmed) ∧
    e'.logs = (if e.logs.length + 1 > LOG_SIZE
               then (e.logs ++ [({ text := e.successText sig, txId := some sig } : LogEntry)]).tail
               else e.logs ++ [({ text := e.successText sig, txId := some sig } : LogEntry)]) := by
  simp only [TransferEngine.executeTransfer] at h
  split at h
  · simp at h
  · split at h
    · simp at h
    · split at h
      · simp at h
      · split at h
        next msg hsend => simp at h
        next sig0 hsend =>
          simp only [Prod.mk.injEq, TickOutcome.sent.injEq, Except.ok.injEq] at h
          obtain ⟨he, -, hsig⟩ := h
          subst hsig
          subst he
          refine ⟨?_, ?_, ?_, ?_⟩
          · by_cases hc : e.transferCount + 1 == 1 <;>
              simp [hc, TransferEngine.log]
          · by_cases hc : e.transferCount + 1 == 1 <;>
              simp [hc, TransferEngine.log]
          · by_cases hc : e.transferCount = 0
            · have hb : (e.transferCount + 1 == 1) = true := by simp [hc]
              simp [hb, hc, TransferEngine.log]
            · have hb : (e.transferCount + 1 == 1) = false := by simp [hc]
              simp [hb, hc, TransferEngine.log]
          · by_cases hc : e.transferCount + 1 == 1 <;>
              simp [hc, TransferEngine.log]

/-- C3 counterexample: in a run whose first tick fails (the blockhash fetch
yields no token) and whose second tick's submission succeeds, the second
tick is the very first tick whose submission succeeds — the signature is
recorded — yet firstTransferConfirmed stays false, because the source sets
it only when transferCount === 1. -/
theorem C3_counterexample :
    (sampleRunning.runTicks [envNoHash, envOk]).lastSignature = some "SIGAAAAtailBBBB" ∧
    (sampleRunning.runTicks [envNoHash, envOk]).firstTransferConfirmed = false :=
  ⟨rfl, rfl⟩

/-- C3 (amended): on every tick whose submission succeeds the engine records
the returned transaction id and appends one log line carrying the truncated
transaction id (the full id as the entry's txId); the confirmation flag,
however, is set true only when the succeeding tick is tick number 1 of the
run — a success on any later tick, e.g. after a failed first tick, leaves
the flag as it was. -/
theorem C3_first_success_flag (e : TransferEngine) (env : TickEnv)
    (e' : TransferEngine) (tx : SentTx) (sig : String)
    (h : e.executeTransfer env = (e', TickOutcome.sent tx (.ok sig))) :
    e'.lastSignature = some sig ∧
    e'.firstTransferConfirmed = (decide (e.transferCount = 0) || e.firstTransferConfirmed) ∧
    (∃ rest, e'.logs = rest ++ [({ text := e.successText sig, txId := some sig } : LogEntry)]) := by
  obtain ⟨hsig, -, hflag, hlogs⟩ := executeTransfer_ok_spec e env e' tx sig h
  refine ⟨hsig, hflag, ?_⟩
  rw [hlogs]
  split
  next hlen =>
    match e.logs, hlen with
    | x :: xs, _ => exact ⟨xs, by simp⟩
  next hlen => exact ⟨e.logs, rfl⟩

/-- Witness for C3 (amended) at a concrete engine whose first tick
succeeds: the signature is recorded and the flag computation applies. -/
theorem C3_first_success_flag_witness :
    (sampleRunning.executeTransfer envOk).1.lastSignature = some "SIGAAAAtailBBBB" ∧
    (sampleRunning.executeTransfer envOk).1.firstTransferConfirmed =
      (decide (sampleRunning.transferCount = 0) || sampleRunning.firstTransferConfirmed) ∧
    (∃ rest, (sampleRunning.executeTransfer envOk).1.logs =
       rest ++ [({ text := sampleRunning.successText "SIGAAAAtailBBBB",
                   txId := some "SIGAAAAtailBBBB" } : LogEntry)]) :=
  C3_first_success_flag sampleRunning envOk _ _ _ rfl

/-- A cache holding a token fetched at time 0. -/
def cexCache : BlockhashCache :=
  { blockhash := some "h", lastValidBlockHeight := some 5, lastFetch := 0 }

/-- A fresh fetch result, distinct from the cached token. -/
def cexFetch : HashResult := { blockhash := some "g", lastValidBlockHeight := some 9 }

/-- C4 counterexample: at age exactly equal to the 25-second TTL (now =
25000, lastFetch = 0) the code reuses the cached token and performs no
fetch, because its refresh condition is (now - lastFetch) > CACHE_DURATION,
strictly greater.  The claim required a fetch whenever the age is not
strictly below the TTL, and asserted that a token whose age at return time
is TTL or older is never returned; here the returned token's age is exactly
the TTL. -/
theorem C4_counterexample :
    cexCache.getRecentBlockhash 25000 (.ok cexFetch) =
      .ok ({ blockhash := some "h", lastValidBlockHeight := some 5 }, cexCache, false) ∧
    (25000 : Int) - cexCache.lastFetch ≥ CACHE_DURATION :=
  ⟨rfl, by decide⟩

/-- C4 (amended): get() reuses the cached token exactly when one exists and
its age is at most the TTL (25000 ms) — with no network fetch; when the
token is missing or its age strictly exceeds the TTL it performs one fetch,
stores the new token, validity bound and current timestamp, and returns the
fresh token.  Consequently the token returned is never strictly older than
the TTL: either it was just fetched (stored timestamp = now) or its age is
at most the TTL. -/
theorem C4_cache_ttl (c : BlockhashCache) (now : Int) (fetch : HashResult) :
    (truthy c.blockhash = true → now - c.lastFetch ≤ CACHE_DURATION →
       c.getRecentBlockhash now (.ok fetch) =
         .ok ({ blockhash := c.blockhash, lastValidBlockHeight := c.lastValidBlockHeight },
              c, false)) ∧
    ((truthy c.blockhash = false ∨ now - c.lastFetch > CACHE_DURATION) →
       c.getRecentBlockhash now (.ok fetch) =
         .ok (fetch,
              { blockhash := fetch.blockhash,
                lastValidBlockHeight := fetch.lastValidBlockHeight,
                lastFetch := now },
              true)) ∧
    (∀ r c' fetched, c.getRecentBlockhash now (.ok fetch) = .ok (r, c', fetched) →
       r.blockhash = c'.blockhash ∧ now - c'.lastFetch ≤ CACHE_DURATION) := by
  unfold BlockhashCache.getRecentBlockhash
  refine ⟨?_, ?_, ?_⟩
  · intro htr hage
    have hcond : (!(truthy c.blockhash) || decide (now - c.lastFetch > CACHE_DURATION)) = false := by
      simp only [htr, Bool.not_true, Bool.false_or, decide_eq_false_iff_not]
      omega
    simp [hcond]
  · intro hor
    have hcond : (!(truthy c.blockhash) || decide (now - c.lastFetch > CACHE_DURATION)) = true := by
      rcases hor with h1 | h2
      · simp [h1]
      · simp [h2]
    simp [hcond]
  · intro r c' fetched hr
    by_cases hcond : (!(truthy c.blockhash) || decide (now - c.lastFetch > CACHE_DURATION)) = true
    · rw [if_pos hcond] at hr
      simp only [Except.ok.injEq, Prod.mk.injEq] at hr
      obtain ⟨hres, hc, -⟩ := hr
      subst hres
      subst hc
      constructor
      · rfl
      · simp only
        have : (0 : Int) ≤ CACHE_DURATION := by decide
        omega
    · rw [if_neg hcond] at hr
      simp only [Except.ok.injEq, Prod.mk.injEq] at hr
      obtain ⟨hres, hc, -⟩ := hr
      subst hres
      subst hc
      constructor
      · rfl
      · simp only [Bool.or_eq_true, Bool.not_eq_true, decide_eq_true_eq, not_or] at hcond
        push_neg at hcond
        omega

/-- Witness for C4 (amended) at a concrete cache, a call within the TTL
and a call after the TTL. -/
theorem C4_cache_ttl_witness :
    cexCache.getRecentBlockhash 10000 (.ok cexFetch) =
      .ok ({ blockhash := some "h", lastValidBlockHeight := some 5 }, cexCache, false) ∧
    cexCache.getRecentBlockhash 30000 (.ok cexFetch) =
      .ok (cexFetch,
           { blockhash := some "g", lastValidBlockHeight := some 9, lastFetch := 30000 },
           true) :=
  ⟨(C4_cache_ttl cexCache 10000 cexFetch).1 rfl (by decide),
   (C4_cache_ttl cexCache 30000 cexFetch).2.1 (Or.inr (by decide))⟩

/-- The last at-most-LOG_SIZE entries of a list (what the ring buffer
retains). -/
def trim (l : List LogEntry) : List LogEntry := l.drop (l.length - LOG_SIZE)

theorem trim_of_le (l : List LogEntry) (h : l.length ≤ LOG_SIZE) : trim l = l := by
  unfold trim
  rw [Nat.sub_eq_zero_of_le h, List.drop_zero]

theorem log_logs_eq (e : TransferEngine) (line : String) (txId : Option String)
    (hlen : e.logs.length ≤ LOG_SIZE) :
    (e.log line txId).logs = trim (e.logs ++ [({ text := line, txId := txId } : LogEntry)]) := by
  unfold TransferEngine.log trim
  simp only [List.length_append, List.length_cons, List.length_nil, Nat.zero_add]
  split
  next h =>
    have h1 : e.logs.length + 1 - LOG_SIZE = 1 := by
      simp only [LOG_SIZE] at h hlen ⊢
      omega
    rw [h1, ← List.drop_one]
  next h =>
    have h0 : e.logs.length + 1 - LOG_SIZE = 0 := by
      simp only [Nat.not_lt, LOG_SIZE] at h ⊢
      omega
    rw [h0, List.drop_zero]

theorem drop_last_idem {α : Type} (a b : List α) (n : Nat) :
    (a.drop (a.length - n) ++ b).drop ((a.drop (a.length - n) ++ b).length - n) =
      (a ++ b).drop ((a ++ b).length - n) := by
  rw [List.drop_append_eq_append_drop, List.drop_append_eq_append_drop, List.drop_drop]
  simp only [List.length_append, List.length_drop]
  congr 1
  · congr 1
    omega
  · congr 1
    omega

theorem trim_trim_append (a b : List LogEntry) : trim (trim a ++ b) = trim (a ++ b) :=
  drop_last_idem a b LOG_SIZE

theorem log_length_le (e : TransferEngine) (line : String) (txId : Option String)
    (h : e.logs.length ≤ LOG_SIZE) :
    (e.log line txId).logs.length ≤ LOG_SIZE := by
  rw [log_logs_eq e line txId h]
  unfold trim
  rw [List.length_drop]
  simp only [LOG_SIZE]
  omega

theorem logAll_logs_eq (e : TransferEngine) (msgs : List (String × Option String))
    (h : e.logs.length ≤ LOG_SIZE) :
    (e.logAll msgs).logs =
      trim (e.logs ++ msgs.map (fun m => ({ text := m.1, txId := m.2 } : LogEntry))) := by
  induction msgs generalizing e with
  | nil => simpa [TransferEngine.logAll] using (trim_of_le _ h).symm
  | cons m ms ih =>
      have hstep := log_logs_eq e m.1 m.2 h
      have hlen := log_length_le e m.1 m.2 h
      calc (e.logAll (m :: ms)).logs
          = ((e.log m.1 m.2).logAll ms).logs := by simp [TransferEngine.logAll]
        _ = trim ((e.log m.1 m.2).logs ++
              ms.map (fun x => ({ text := x.1, txId := x.2 } : LogEntry))) := ih _ hlen
        _ = trim (trim (e.logs ++ [({ text := m.1, txId := m.2 } : LogEntry)]) ++
              ms.map (fun x => ({ text := x.1, txId := x.2 } : LogEntry))) := by rw [hstep]
        _ = trim ((e.logs ++ [({ text := m.1, txId := m.2 } : LogEntry)]) ++
              ms.map (fun x => ({ text := x.1, txId := x.2 } : LogEntry))) :=
            trim_trim_append _ _
        _ = trim (e.logs ++
              (m :: ms).map (fun x => ({ text := x.1, txId := x.2 } : LogEntry))) := by
            rw [List.append_assoc]
            rfl

/-- C5: an append keeps the buffer length at most 200; an append to a full
buffer evicts exactly the oldest entry (the result is the old tail followed
by the new entry); and after any N > 200 appends getLogs() returns exactly
the last 200 appended entries, oldest first, whatever (legal, length ≤ 200)
buffer they started from. -/
theorem C5_log_ring (e : TransferEngine) (line : String) (txId : Option String)
    (msgs : List (String × Option String)) :
    (e.logs.length ≤ LOG_SIZE → (e.log line txId).logs.length ≤ LOG_SIZE) ∧
    (e.logs.length = LOG_SIZE →
       (e.log line txId).logs = e.logs.tail ++ [({ text := line, txId := txId } : LogEntry)]) ∧
    (e.logs.length ≤ LOG_SIZE → msgs.length > LOG_SIZE →
       (e.logAll msgs).getLogs =
         (msgs.map (fun m => ({ text := m.1, txId := m.2 } : LogEntry))).drop
           (msgs.length - LOG_SIZE)) := by
  refine ⟨log_length_le e line txId, ?_, ?_⟩
  · intro hfull
    rw [log_logs_eq e line txId (le_of_eq hfull)]
    unfold trim
    rw [List.drop_append_eq_append_drop]
    simp only [List.length_append, List.length_cons, List.length_nil, Nat.zero_add]
    have h1 : e.logs.length + 1 - LOG_SIZE = 1 := by
      simp only [LOG_SIZE] at hfull ⊢
      omega
    rw [h1]
    have h2 : (1 : Nat) - e.logs.length = 0 := by
      simp only [LOG_SIZE] at hfull
      omega
    rw [h2, List.drop_zero, List.drop_one]
  · intro hle hlong
    have hmain := logAll_logs_eq e msgs hle
    have hg : (e.logAll msgs).getLogs = trim ((e.logAll msgs).logs) := rfl
    rw [hg, hmain]
    have htr : trim (trim (e.logs ++ msgs.map
        (fun m => ({ text := m.1, txId := m.2 } : LogEntry)))) =
        trim (e.logs ++ msgs.map (fun m => ({ text := m.1, txId := m.2 } : LogEntry))) := by
      apply trim_of_le
      unfold trim
      rw [List.length_drop]
      simp only [LOG_SIZE]
      omega
    rw [htr]
    unfold trim
    rw [List.drop_append_eq_append_drop]
    simp only [List.length_append, List.length_map]
    rw [List.drop_eq_nil_of_le
      (by simp only [LOG_SIZE] at hle hlong ⊢; omega)]
    have h3 : e.logs.length + msgs.length - LOG_SIZE - e.logs.length =
        msgs.length - LOG_SIZE := by
      simp only [LOG_SIZE] at hle hlong ⊢
      omega
    rw [h3, List.nil_append]

set_option maxRecDepth 4000 in
/-- Witness for C5 at the freshly constructed engine and 201 appends. -/
theorem C5_log_ring_witness :
    (sampleIdle.logAll (List.replicate 201 ("x", none))).getLogs =
      ((List.replicate 201 ("x", (none : Option String))).map
        (fun m => ({ text := m.1, txId := m.2 } : LogEntry))).drop
        ((List.replicate 201 ("x", (none : Option String))).length - LOG_SIZE) :=
  (C5_log_ring sampleIdle "x" none (List.replicate 201 ("x", none))).2.2
    (by decide) (by decide)

/-- C6: calling start while the engine is Running (timer armed) fails with
the AlreadyRunning error "Loop already running" and hands back the engine
state exactly as it was — the throw happens before any field is written;
and start can succeed only from Idle. -/
theorem C6_start_already_running (e : TransferEngine) (u : String) (up : Option String)
    (atas : Except String (String × String)) (v : String) (tid : Nat) :
    (e.intervalId.isSome = true →
       e.start u up atas v tid = StartResult.err "Loop already running" e) ∧
    (∀ e', e.start u up atas v tid = StartResult.ok e' → e.intervalId = none) := by
  constructor
  · intro hrun
    unfold TransferEngine.start
    rw [if_pos hrun]
  · intro e' hok
    by_cases hrun : e.intervalId.isSome
    · unfold TransferEngine.start at hok
      rw [if_pos hrun] at hok
      simp at hok
    · exact Option.not_isSome_iff_eq_none.mp hrun

/-- Witness for C6 at a concrete Running engine. -/
theorem C6_start_already_running_witness :
    sampleRunning.start "U2" none (.ok ("A", "B")) "C" 3 =
      StartResult.err "Loop already running" sampleRunning :=
  (C6_start_already_running sampleRunning "U2" none (.ok ("A", "B")) "C" 3).1 rfl

/-- C7: stop is total (it never throws): on an Idle engine it returns the
state unchanged; on a Running engine it disarms the timer, zeroes the tick
counter, last signature and confirmation flag, and appends exactly one
terminal log line. -/
theorem C7_stop_behaviour (e : TransferEngine) :
    (e.intervalId = none → e.stop = e) ∧
    (e.intervalId.isSome = true →
       e.stop = ({ e with
                    intervalId := none
                    transferCount := 0
                    lastSignature := none
                    firstTransferConfirmed := false } : TransferEngine).log "⏹ Stream stopped") := by
  constructor
  · intro hid
    unfold TransferEngine.stop
    rw [if_neg (by simp [hid])]
  · intro hrun
    unfold TransferEngine.stop
    rw [if_pos hrun]

/-- Witness for C7 at a concrete Idle engine and a concrete Running
engine. -/
theorem C7_stop_behaviour_witness :
    sampleIdle.stop = sampleIdle ∧
    sampleRunning.stop =
      ({ sampleRunning with
          intervalId := none
          transferCount := 0
          lastSignature := none
          firstTransferConfirmed := false } : TransferEngine).log "⏹ Stream stopped" :=
  ⟨(C7_stop_behaviour sampleIdle).1 rfl, (C7_stop_behaviour sampleRunning).2 rfl⟩

/-- C8: a tick that obtains no blockhash token from the cache is abandoned
silently: the log buffer, signature, flag, timer, accounts and rate are all
untouched; the tick counter was already incremented at the start of the
tick; and the freshness cache ends the tick cleared. -/
theorem C8_no_token_tick (e : TransferEngine) (env : TickEnv) (e' : TransferEngine)
    (h : e.executeTransfer env = (e', TickOutcome.noBlockhash)) :
    e'.logs = e.logs ∧
    e'.transferCount = e.transferCount + 1 ∧
    e'.lastSignature = e.lastSignature ∧
    e'.firstTransferConfirmed = e.firstTransferConfirmed ∧
    e'.intervalId = e.intervalId ∧
    e'.userAta = e.userAta ∧
    e'.creatorAta = e.creatorAta ∧
    e'.uploaderPubkey = e.uploaderPubkey ∧
    e'.uploaderAta = e.uploaderAta ∧
    e'.userPubkey = e.userPubkey ∧
    e'.perSecond = e.perSecond ∧
    e'.blockhashCache = e.blockhashCache.clear := by
  simp only [TransferEngine.executeTransfer] at h
  split at h
  · simp at h
  · split at h
    · simp only [Prod.mk.injEq] at h
      obtain ⟨he, -⟩ := h
      subst he
      exact ⟨rfl, rfl, rfl, rfl, rfl, rfl, rfl, rfl, rfl, rfl, rfl, rfl⟩
    · split at h
      · simp only [Prod.mk.injEq] at h
        obtain ⟨he, -⟩ := h
        subst he
        exact ⟨rfl, rfl, rfl, rfl, rfl, rfl, rfl, rfl, rfl, rfl, rfl, rfl⟩
      · split at h
        · simp at h
        · simp at h

/-- Witness for C8 at a concrete tick whose fetch yields a null
blockhash. -/
theorem C8_no_token_tick_witness :
    (sampleRunning.executeTransfer envNoHash).1.logs = sampleRunning.logs ∧
    (sampleRunning.executeTransfer envNoHash).1.transferCount =
      sampleRunning.transferCount + 1 ∧
    (sampleRunning.executeTransfer envNoHash).1.blockhashCache =
      sampleRunning.blockhashCache.clear :=
  ⟨(C8_no_token_tick sampleRunning envNoHash _ rfl).1,
   (C8_no_token_tick sampleRunning envNoHash _ rfl).2.1,
   (C8_no_token_tick sampleRunning envNoHash _ rfl).2.2.2.2.2.2.2.2.2.2.2⟩

/-- C9: when account resolution fails during a start on an Idle engine, the
error propagates with the engine still Idle (no timer armed, getStatus
reports inactive, so no tick can ever fire from that call), but the failed
start is not atomic: the log buffer has already been emptied and the stored
payer and secondary-recipient identities already overwritten; every other
field is untouched. -/
theorem C9_start_failure_nonatomic (e : TransferEngine) (u : String) (up : Option String)
    (v : String) (tid : Nat) (msg : String) (hidle : e.intervalId = none) :
    e.start u up (.error msg) v tid =
      StartResult.err msg
        ({ e with
            logs := ([] : List LogEntry)
            userPubkey := some u
            uploaderPubkey := up } : TransferEngine) ∧
    ({ e with
        logs := ([] : List LogEntry)
        userPubkey := some u
        uploaderPubkey := up } : TransferEngine).getStatus.active = false := by
  constructor
  · unfold TransferEngine.start
    rw [if_neg (by simp [hidle])]
  · simp [TransferEngine.getStatus, hidle]

/-- Witness for C9 at a concrete Idle engine whose account resolution
rejects. -/
theorem C9_start_failure_nonatomic_witness :
    sampleIdle.start "U" (some "UP") (.error "lookup failed") "V" 5 =
      StartResult.err "lookup failed"
        ({ sampleIdle with
            logs := ([] : List LogEntry)
            userPubkey := some "U"
            uploaderPubkey := some "UP" } : TransferEngine) :=
  (C9_start_failure_nonatomic sampleIdle "U" (some "UP") "V" 5 "lookup failed" rfl).1

/-- A Running engine whose log buffer is exactly full, its oldest entry
distinct from the rest. -/
def cexC10Engine : TransferEngine :=
  { sampleRunning with
    logs := ({ text := "first", txId := none } : LogEntry) ::
      List.replicate 199 ({ text := "x", txId := none } : LogEntry) }

set_option maxRecDepth 8000 in
/-- C10 counterexample: on a Running engine whose buffer already holds 200
entries, stop() appends the terminal line and thereby evicts the oldest
entry — an entry present before the stop() call that getLogs() no longer
returns afterwards, contradicting the claim that every entry present before
stop is still returned. -/
theorem C10_counterexample :
    ({ text := "first", txId := (none : Option String) } : LogEntry) ∈ cexC10Engine.logs ∧
    cexC10Engine.logs.length = LOG_SIZE ∧
    ({ text := "first", txId := (none : Option String) } : LogEntry) ∉
      cexC10Engine.stop.getLogs := by
  exact ⟨by decide, by decide, by decide⟩

/-- C10 (amended): stop never empties the log buffer: on an Idle engine the
logs are untouched; on a Running engine it appends the terminal line, and
only when the buffer is already full does that appending evict the single
oldest entry, all other entries surviving in order; emptying the buffer is
done by start alone (a successful start leaves exactly the stream-started
line). -/
theorem C10_stop_keeps_history (e : TransferEngine) :
    (e.intervalId = none → e.stop.logs = e.logs) ∧
    (e.intervalId.isSome = true → e.logs.length < LOG_SIZE →
       e.stop.logs = e.logs ++ [({ text := "⏹ Stream stopped", txId := none } : LogEntry)]) ∧
    (e.intervalId.isSome = true → e.logs.length = LOG_SIZE →
       e.stop.logs =
         e.logs.tail ++ [({ text := "⏹ Stream stopped", txId := none } : LogEntry)]) ∧
    (∀ u up atas v tid e', e.start u up atas v tid = StartResult.ok e' →
       e'.logs = [({ text := "▶ Stream started", txId := none } : LogEntry)]) := by
  refine ⟨?_, ?_, ?_, ?_⟩
  · intro hid
    unfold TransferEngine.stop
    rw [if_neg (by simp [hid])]
  · intro hrun hlen
    unfold TransferEngine.stop
    rw [if_pos hrun]
    unfold TransferEngine.log
    simp only [List.length_append, List.length_cons, List.length_nil, Nat.zero_add]
    rw [if_neg (by simp only [LOG_SIZE] at hlen ⊢; omega)]
  · intro hrun hlen
    unfold TransferEngine.stop
    rw [if_pos hrun]
    unfold TransferEngine.log
    simp only [List.length_append, List.length_cons, List.length_nil, Nat.zero_add]
    rw [if_pos (by simp only [LOG_SIZE] at hlen ⊢; omega)]
    cases hl : e.logs with
    | nil =>
        rw [hl] at hlen
        simp only [List.length_nil, LOG_SIZE] at hlen
        omega
    | cons x xs => simp
  · intro u up atas v tid e' hok
    unfold TransferEngine.start at hok
    by_cases hrun : e.intervalId.isSome
    · rw [if_pos hrun] at hok
      simp at hok
    · rw [if_neg hrun] at hok
      cases atas with
      | error m => simp at hok
      | ok p =>
          cases p with
          | mk ua ca =>
              simp only [StartResult.ok.injEq] at hok
              subst hok
              simp [TransferEngine.log, LOG_SIZE]

/-- Witness for C10 (amended) at a concrete Running engine with a non-full
buffer. -/
theorem C10_stop_keeps_history_witness :
    sampleRunning.stop.logs =
      sampleRunning.logs ++ [({ text := "⏹ Stream stopped", txId := none } : LogEntry)] :=
  (C10_stop_keeps_history sampleRunning).2.1 rfl (by decide)

end Flowserver
